import Mathlib

/-!
Shallow embedding of `src/app.py` (the Taskora Flask application).

Each route handler becomes a pure function from an explicit `Store`
(the two SQLAlchemy tables, `user` and `task`, as lists of rows) to a
result paired with the next store.  Handlers that dereference a lookup
result that may be `None` (the `complete` and `delete` routes) or whose
commit can raise `IntegrityError` (duplicate username at `register`)
return `Option Store`, with `none` modelling the uncaught exception; in
that case the transaction is not committed and the stored state does not
change.  Primary-key columns (`User.id`, `Task.id`) are unique in the
database; theorems that need this uniqueness take it as a `Nodup`
hypothesis on the id column.  Password hashing is modelled by an
injective tagging function, which is all the login flow observes.
-/

namespace Taskora

/-- Row of the `user` table: `id` (primary key), `username` (unique),
`password` (a hash), `plan` (default "Free"), `streak` (default 0). -/
structure User where
  id : Nat
  username : String
  password : String
  plan : String
  streak : Int
  deriving DecidableEq, Repr

/-- Row of the `task` table, mirroring the columns of `class Task` in
`app.py`; `focus_minutes` is a nullable integer column and `status`
defaults to "Pending". -/
structure Task where
  id : Nat
  content : String
  due_date : String
  due_time : String
  priority : String
  category : String
  focus_minutes : Option Int
  status : String
  created_date : String
  user_id : Nat
  deriving DecidableEq, Repr

/-- The persistent state: the two tables of the SQLite database. -/
structure Store where
  users : List User
  tasks : List Task
  deriving DecidableEq, Repr

/-- Model of `werkzeug.generate_password_hash`: an injective tag. -/
def generate_password_hash (p : String) : String := "pbkdf2$" ++ p

/-- Model of `werkzeug.check_password_hash`. -/
def check_password_hash (h p : String) : Bool := h == generate_password_hash p

/-- The query `Task.query.filter_by(user_id=current_user.id).all()`
performed at the top of the `dashboard` handler. -/
def userTasks (s : Store) (uid : Nat) : List Task :=
  s.tasks.filter (fun t => t.user_id == uid)

/-- The fields of the task-creation form posted to `/dashboard`. -/
structure TaskForm where
  content : String
  due_date : String
  due_time : String
  priority : String
  category : String
  focus_minutes : Int
  created_date : String
  deriving DecidableEq, Repr

/-- The `Task(...)` row constructed in the POST branch of `dashboard`:
status takes its default "Pending", `newId` is the fresh primary key. -/
def mkTask (f : TaskForm) (newId : Nat) (uid : Nat) : Task :=
  { id := newId, content := f.content, due_date := f.due_date,
    due_time := f.due_time, priority := f.priority, category := f.category,
    focus_minutes := some f.focus_minutes, status := "Pending",
    created_date := f.created_date, user_id := uid }

/-- Outcome of a POST to `/dashboard`: either the free-plan advisory page
("Free plan allows only 5 tasks. Upgrade.") or a created task. -/
inductive CreateOutcome where
  | limitAdvisory
  | created
  deriving DecidableEq, Repr

/-- POST branch of the `dashboard` handler: the gate
`current_user.plan == "Free" and len(tasks) >= 5` is checked against
`tasks`, the list of ALL of the callers tasks queried at line 98
(completed rows included); if it fires, the advisory page is returned
and nothing is added; otherwise the new row is inserted. -/
def dashboardPost (s : Store) (cu : User) (f : TaskForm) (newId : Nat) :
    CreateOutcome × Store :=
  if cu.plan = "Free" ∧ 5 ≤ (userTasks s cu.id).length then
    (CreateOutcome.limitAdvisory, s)
  else
    (CreateOutcome.created, { s with tasks := s.tasks ++ [mkTask f newId cu.id] })

/-- The count `len([t for t in tasks if t.status == "Completed"])`. -/
def completedCount (tasks : List Task) : Nat :=
  (tasks.filter (fun t => t.status == "Completed")).length

/-- Count of the tasks that are not completed (used to state the plan
gate the way the specification words it). -/
def nonCompletedCount (tasks : List Task) : Nat :=
  (tasks.filter (fun t => t.status != "Completed")).length

/-- The sum `sum([t.focus_minutes or 0 for t in tasks])`: a null column
counts as zero. -/
def totalFocus (tasks : List Task) : Int :=
  (tasks.map (fun t => t.focus_minutes.getD 0)).sum

/-- Rounding to two decimal places, as in `round(x, 2)` (ties are
modelled as rounding half up; no claim depends on tie direction). -/
def round2 (q : ℚ) : ℚ := ((round (q * 100) : ℤ) : ℚ) / 100

/-- The `completion_rate` computation of the `dashboard` handler:
zero when there are no tasks, otherwise
`round((completed_tasks / total_tasks) * 100, 2)`. -/
def completion_rate (tasks : List Task) : ℚ :=
  if 0 < tasks.length then
    round2 ((completedCount tasks : ℚ) / (tasks.length : ℚ) * 100)
  else 0

/-- Result of a POST to `/login`. -/
inductive LoginOutcome where
  | success (u : User)
  | failure
  deriving DecidableEq, Repr

/-- The `login` handler: look the username up, check the hash, start a
session on success.  No column of any table is written. -/
def login (s : Store) (username pw : String) : LoginOutcome × Store :=
  match s.users.find? (fun u => u.username == username) with
  | some u =>
      if check_password_hash u.password pw then (LoginOutcome.success u, s)
      else (LoginOutcome.failure, s)
  | none => (LoginOutcome.failure, s)

/-- The assignment `task.status = "Completed"` applied to the row whose
primary key is `tid` (ids are unique, so at most one row changes). -/
def setTaskStatus (tasks : List Task) (tid : Nat) (st : String) : List Task :=
  tasks.map (fun t => if t.id == tid then { t with status := st } else t)

/-- The statement `current_user.streak += 1` applied to the row whose
primary key is `uid`. -/
def bumpStreak (users : List User) (uid : Nat) : List User :=
  users.map (fun u => if u.id == uid then { u with streak := u.streak + 1 } else u)

/-- The `/complete/<id>` handler: `Task.query.get(id)` followed by an
unguarded `task.status = "Completed"` (so a missing id raises
`AttributeError`, modelled as `none`); then the callers streak is
incremented when the callers plan is not "Free".  There is no ownership
check on the task. -/
def complete (s : Store) (cu : User) (tid : Nat) : Option Store :=
  match s.tasks.find? (fun t => t.id == tid) with
  | none => none
  | some _ =>
      some { users := if cu.plan ≠ "Free" then bumpStreak s.users cu.id else s.users,
             tasks := setTaskStatus s.tasks tid "Completed" }

/-- The `/delete/<id>` handler: `Task.query.get(id)` followed by an
unguarded `db.session.delete(task)` (so a missing id raises
`UnmappedInstanceError`, modelled as `none`). -/
def delete (s : Store) (tid : Nat) : Option Store :=
  match s.tasks.find? (fun t => t.id == tid) with
  | none => none
  | some t => some { s with tasks := s.tasks.erase t }

/-- The POST branch of `/register`: the handler inserts the new row
unconditionally; the `unique=True` constraint on `username` makes the
commit raise `IntegrityError` on a duplicate (modelled as `none`, the
insert rolled back).  A fresh account gets plan "Free" and streak 0. -/
def register (s : Store) (username pw : String) (newId : Nat) : Option Store :=
  if s.users.any (fun u => u.username == username) then none
  else some { s with users := s.users ++
      [{ id := newId, username := username,
         password := generate_password_hash pw, plan := "Free", streak := 0 }] }

/-- HTTP methods accepted by the `/subscribe` route: the decorator
`@app.route('/subscribe')` carries no `methods` argument, so only GET is
routed. -/
def subscribeMethods : List String := ["GET"]

/-- The `/subscribe` handler body: it renders a static payment page
("After payment, contact admin to activate.") and performs no query and
no write, so the store is returned unchanged. -/
def subscribe (s : Store) : Store := s

/-- Observation: the streak column of the user row with primary key
`uid`. -/
def streakOf (s : Store) (uid : Nat) : Option Int :=
  (s.users.find? (fun u => u.id == uid)).map (fun u => u.streak)

/-- Observation: the plan column of the user row with primary key
`uid`. -/
def planOf (s : Store) (uid : Nat) : Option String :=
  (s.users.find? (fun u => u.id == uid)).map (fun u => u.plan)

/-- Observation: the status column of the task row `tid` after a
`/complete/<tid>` request by `cu` (none if the request crashed). -/
def statusAfter (s : Store) (cu : User) (tid : Nat) : Option String :=
  (complete s cu tid).bind
    (fun s2 => (s2.tasks.find? (fun t => t.id == tid)).map (fun t => t.status))

/-- Observation: the callers streak after a `/complete/<tid>` request. -/
def streakAfterComplete (s : Store) (cu : User) (tid : Nat) : Option Int :=
  (complete s cu tid).bind (fun s2 => streakOf s2 cu.id)

/-- Observation: the (id, streak) column pairs of a user table. -/
def streaksOf (users : List User) : List (Nat × Int) :=
  users.map (fun u => (u.id, u.streak))

/-- Observation: the user table after a `/register` request (unchanged
when the request crashed on the unique constraint). -/
def usersAfterRegister (s : Store) (username pw : String) (newId : Nat) : List User :=
  ((register s username pw newId).getD s).users

/-- Observation: the user table after a `/delete/<tid>` request
(unchanged when the request crashed on a missing id). -/
def usersAfterDelete (s : Store) (tid : Nat) : List User :=
  ((delete s tid).getD s).users

/-! Concrete fixtures used by witnesses and counterexamples. -/

/-- A task row with only the fields the business rules read. -/
def sampleTask (tid uid : Nat) (st : String) : Task :=
  { id := tid, content := "t", due_date := "", due_time := "", priority := "Low",
    category := "", focus_minutes := some 0, status := st, created_date := "",
    user_id := uid }

/-- A concrete creation form. -/
def sampleForm : TaskForm :=
  { content := "new", due_date := "", due_time := "", priority := "Low",
    category := "", focus_minutes := 5, created_date := "" }

/-- A Free-plan account. -/
def aliceFree : User :=
  { id := 1, username := "alice", password := generate_password_hash "pw",
    plan := "Free", streak := 0 }

/-- A Premium account with a running streak. -/
def bobPremium : User :=
  { id := 2, username := "bob", password := generate_password_hash "pw2",
    plan := "Premium", streak := 3 }

/-- A Premium account with streak 5 (login counterexample). -/
def aliceStreak5 : User :=
  { id := 1, username := "alice", password := generate_password_hash "pw",
    plan := "Premium", streak := 5 }

/-- Store with no rows at all. -/
def emptyStore : Store := { users := [], tasks := [] }

/-- A Free account owning five tasks, all of them completed. -/
def storeFiveDone : Store :=
  { users := [aliceFree],
    tasks := [sampleTask 1 1 "Completed", sampleTask 2 1 "Completed",
              sampleTask 3 1 "Completed", sampleTask 4 1 "Completed",
              sampleTask 5 1 "Completed"] }

/-- Store holding only `aliceStreak5`. -/
def storeLogin : Store := { users := [aliceStreak5], tasks := [] }

/-- Store whose only task has id 1, so id 7 is absent. -/
def storeNoTask7 : Store := { users := [aliceFree], tasks := [sampleTask 1 1 "Pending"] }

/-- Two accounts; the single pending task belongs to alice (id 1). -/
def storeCross : Store :=
  { users := [aliceFree, bobPremium], tasks := [sampleTask 1 1 "Pending"] }

/-- The Premium account owning seven tasks. -/
def storePremiumMany : Store :=
  { users := [bobPremium],
    tasks := [sampleTask 1 2 "Pending", sampleTask 2 2 "Pending",
              sampleTask 3 2 "Completed", sampleTask 4 2 "Pending",
              sampleTask 5 2 "Pending", sampleTask 6 2 "Pending",
              sampleTask 7 2 "Pending"] }

/-- Two tasks, one completed: completion rate 50. -/
def tasksHalf : List Task := [sampleTask 1 1 "Completed", sampleTask 2 1 "Pending"]

/-! Helper lemmas about primary-key lookups. -/

/-- With pairwise distinct task ids, the lookup by the id of a stored
row returns exactly that row. -/
theorem findTaskNodup (l : List Task) (t : Task) (ht : t ∈ l)
    (hn : (l.map Task.id).Nodup) :
    l.find? (fun x => x.id == t.id) = some t := by
  induction l with
  | nil => cases ht
  | cons b l ih =>
      rw [List.map_cons, List.nodup_cons] at hn
      rcases List.mem_cons.mp ht with rfl | hmem
      · simp [List.find?]
      · have hne : (b.id == t.id) = false := by
          rw [beq_eq_false_iff_ne]
          intro he
          exact hn.1 (he ▸ List.mem_map_of_mem Task.id hmem)
        rw [List.find?_cons_of_neg _ (by simp [hne]), ih hmem hn.2]

/-- With pairwise distinct user ids, the lookup by the id of a stored
row returns exactly that row. -/
theorem findUserNodup (l : List User) (u : User) (hu : u ∈ l)
    (hn : (l.map User.id).Nodup) :
    l.find? (fun x => x.id == u.id) = some u := by
  induction l with
  | nil => cases hu
  | cons b l ih =>
      rw [List.map_cons, List.nodup_cons] at hn
      rcases List.mem_cons.mp hu with rfl | hmem
      · simp [List.find?]
      · have hne : (b.id == u.id) = false := by
          rw [beq_eq_false_iff_ne]
          intro he
          exact hn.1 (he ▸ List.mem_map_of_mem User.id hmem)
        rw [List.find?_cons_of_neg _ (by simp [hne]), ih hmem hn.2]

/-- With pairwise distinct task ids, erasing a stored row is the same
as filtering its id out. -/
theorem eraseTaskNodup (l : List Task) (t : Task) (ht : t ∈ l)
    (hn : (l.map Task.id).Nodup) :
    l.erase t = l.filter (fun x => x.id != t.id) := by
  induction l with
  | nil => cases ht
  | cons b l ih =>
      rw [List.map_cons, List.nodup_cons] at hn
      rcases List.mem_cons.mp ht with rfl | hmem
      · rw [List.erase_cons_head]
        have hl : l.filter (fun x => x.id != t.id) = l := by
          apply List.filter_eq_self.mpr
          intro x hx
          simp only [bne_iff_ne, ne_eq]
          intro he
          exact hn.1 (he ▸ List.mem_map_of_mem Task.id hx)
        simp [hl]
      · have hne : t.id ≠ b.id := by
          intro he
          exact hn.1 (he ▸ List.mem_map_of_mem Task.id hmem)
        have hbt : b ≠ t := fun he => hne (he ▸ rfl)
        rw [List.erase_cons_tail (by simpa using hbt), ih hmem hn.2]
        simp [List.filter_cons, bne_iff_ne, Ne.symm hne]

/-- Setting the status of row `tid` commutes with the lookup of row
`tid`: the found row comes back with its status overwritten. -/
theorem find_setTaskStatus (l : List Task) (tid : Nat) (st : String) :
    (setTaskStatus l tid st).find? (fun x => x.id == tid) =
      (l.find? (fun x => x.id == tid)).map (fun x => { x with status := st }) := by
  unfold setTaskStatus
  rw [List.find?_map]
  have hp : ((fun x : Task => x.id == tid) ∘ fun t : Task =>
      if t.id == tid then { t with status := st } else t)
      = (fun x : Task => x.id == tid) := by
    funext t
    by_cases h : t.id = tid
    · simp [h]
    · simp [h]
  rw [hp]
  cases hfind : l.find? (fun x => x.id == tid) with
  | none => rfl
  | some t0 =>
      have h0 : t0.id = tid := by simpa using List.find?_some hfind
      simp [h0]

/-- Bumping the streak of row `uid` commutes with the lookup of row
`uid`: the found row comes back with its streak incremented. -/
theorem find_bumpStreak (l : List User) (uid : Nat) :
    (bumpStreak l uid).find? (fun x => x.id == uid) =
      (l.find? (fun x => x.id == uid)).map (fun x => { x with streak := x.streak + 1 }) := by
  unfold bumpStreak
  rw [List.find?_map]
  have hp : ((fun x : User => x.id == uid) ∘ fun u : User =>
      if u.id == uid then { u with streak := u.streak + 1 } else u)
      = (fun x : User => x.id == uid) := by
    funext u
    by_cases h : u.id = uid
    · simp [h]
    · simp [h]
  rw [hp]
  cases hfind : l.find? (fun x => x.id == uid) with
  | none => rfl
  | some u0 =>
      have h0 : u0.id = uid := by simpa using List.find?_some hfind
      simp [h0]

/-- The login handler never writes to the store. -/
theorem loginSndEq (s : Store) (username pw : String) :
    (login s username pw).2 = s := by
  unfold login
  cases s.users.find? (fun u => u.username == username) with
  | none => rfl
  | some u =>
      by_cases h : check_password_hash u.password pw = true
      · simp [h]
      · simp [h]

/-- Rounding is monotone. -/
theorem roundLeRound (a b : ℚ) (h : a ≤ b) : round a ≤ round b := by
  rw [round_eq, round_eq]
  exact Int.floor_le_floor (by linarith)

/-- Two-decimal rounding of a value in [0, 100] stays in [0, 100]. -/
theorem round2_bounds (q : ℚ) (h0 : 0 ≤ q) (h1 : q ≤ 100) :
    0 ≤ round2 q ∧ round2 q ≤ 100 := by
  unfold round2
  have hlo : (0 : ℤ) ≤ round (q * 100) := by
    have := roundLeRound 0 (q * 100) (by nlinarith)
    simpa using this
  have hhi : round (q * 100) ≤ (10000 : ℤ) := by
    have h2 : q * 100 ≤ ((10000 : ℤ) : ℚ) := by push_cast; nlinarith
    have := roundLeRound (q * 100) ((10000 : ℤ) : ℚ) h2
    rwa [round_intCast] at this
  constructor
  · positivity
  · rw [div_le_iff₀ (by norm_num : (0:ℚ) < 100)]
    have : ((round (q * 100) : ℤ) : ℚ) ≤ ((10000 : ℤ) : ℚ) := by exact_mod_cast hhi
    push_cast at this ⊢
    linarith

/-! Claim theorems. -/

/-- Claim C1, counterexample: a Free account owning five tasks that are
all completed has zero non-completed tasks, yet its creation request is
refused by the plan gate, because the gate counts every task row of the
account, completed rows included. -/
theorem C1_planGate_cex :
    aliceFree.plan = "Free" ∧
    nonCompletedCount (userTasks storeFiveDone aliceFree.id) = 0 ∧
    dashboardPost storeFiveDone aliceFree sampleForm 6 =
      (CreateOutcome.limitAdvisory, storeFiveDone) := by decide

/-- Claim C1 (amended): for a Free account, a creation request made
while the account owns at least five tasks in total (completed rows
included) is refused with the limit advisory and adds no row; with
fewer than five tasks in total the plan gate does not refuse and the
new row is inserted. -/
theorem C1_planGate_total (s : Store) (cu : User) (f : TaskForm) (newId : Nat)
    (hplan : cu.plan = "Free") :
    (5 ≤ (userTasks s cu.id).length →
      dashboardPost s cu f newId = (CreateOutcome.limitAdvisory, s)) ∧
    ((userTasks s cu.id).length < 5 →
      dashboardPost s cu f newId =
        (CreateOutcome.created, { s with tasks := s.tasks ++ [mkTask f newId cu.id] })) := by
  constructor
  · intro h5
    unfold dashboardPost
    rw [if_pos ⟨hplan, h5⟩]
  · intro h5
    unfold dashboardPost
    rw [if_neg (by rintro ⟨-, hc⟩; omega)]

/-- Claim C1 witness: the amended gate refuses the sixth task of the
concrete Free account of `storeFiveDone`. -/
theorem C1_planGate_total_witness :
    dashboardPost storeFiveDone aliceFree sampleForm 6 =
      (CreateOutcome.limitAdvisory, storeFiveDone) :=
  (C1_planGate_total storeFiveDone aliceFree sampleForm 6 (by decide)).1 (by decide)

/-- Claim C2, counterexample: the user table has no last-login column,
so the stored last-login date is null for every account, and the claim
then demands that a successful login reset the streak to 1; but on
`storeLogin` the account logs in successfully with streak 5 and its
streak is still 5 afterwards. -/
theorem C2_loginStreak_cex :
    (login storeLogin "alice" "pw").1 = LoginOutcome.success aliceStreak5 ∧
    streakOf (login storeLogin "alice" "pw").2 aliceStreak5.id = some 5 ∧
    (5 : Int) ≠ 1 := by decide

/-- Claim C2 (amended): a login request, successful or not, writes
nothing to the store: every streak counter is left unchanged and no
last-login date exists to be updated (the streak is maintained by the
`/complete` handler instead). -/
theorem C2_loginWritesNothing (s : Store) (username pw : String) :
    (login s username pw).2 = s :=
  loginSndEq s username pw

/-- Claim C3 (code bug): a delete request for an id absent from the
task store dereferences the `None` returned by `Task.query.get`: on
`storeNoTask7`, whose only task id is 1, the request for id 7 crashes
(modelled as `none`) instead of producing a not-found outcome. -/
theorem C3_deleteMissingCrashes : delete storeNoTask7 7 = none := by decide

/-- Claim C4, counterexample: the `/subscribe` route accepts only GET
and its handler writes nothing, so after a request by the Free account
of `storeFiveDone` the plan column still reads "Free", not "Premium". -/
theorem C4_subscribe_cex :
    "POST" ∉ subscribeMethods ∧
    planOf (subscribe storeFiveDone) aliceFree.id = some "Free" ∧
    planOf (subscribe storeFiveDone) aliceFree.id ≠ some "Premium" := by decide

/-- Claim C4 (amended): the `/subscribe` route routes no POST method and
its handler returns the store unchanged, so no request to it ever
changes any plan column. -/
theorem C4_subscribeChangesNothing (s : Store) :
    subscribe s = s ∧ "POST" ∉ subscribeMethods :=
  ⟨rfl, by decide⟩

/-- Claim C5 (code bug): registering the same username twice: the first
request succeeds, the second hits the unique constraint and its commit
raises `IntegrityError` (modelled as `none`) instead of re-showing the
form with a warning; no second account row is created. -/
theorem C5_registerDuplicateCrashes :
    (register emptyStore "alice" "pw" 1).isSome = true ∧
    (register emptyStore "alice" "pw" 1).bind
      (fun s1 => register s1 "alice" "pw2" 2) = none := by decide

/-- Claim C9: a Premium account is never refused by the plan gate; the
creation request always inserts the new row, whatever rows the account
already owns. -/
theorem C9_premiumNeverLimited (s : Store) (cu : User) (f : TaskForm) (newId : Nat)
    (hplan : cu.plan = "Premium") :
    dashboardPost s cu f newId =
      (CreateOutcome.created, { s with tasks := s.tasks ++ [mkTask f newId cu.id] }) := by
  unfold dashboardPost
  rw [if_neg (by rintro ⟨hfree, -⟩; rw [hplan] at hfree; exact absurd hfree (by decide))]

/-- Claim C9 witness: the Premium account of `storePremiumMany`, owning
seven tasks, creates an eighth without being refused. -/
theorem C9_premiumNeverLimited_witness :
    dashboardPost storePremiumMany bobPremium sampleForm 8 =
      (CreateOutcome.created,
        { storePremiumMany with
            tasks := storePremiumMany.tasks ++ [mkTask sampleForm 8 bobPremium.id] }) :=
  C9_premiumNeverLimited storePremiumMany bobPremium sampleForm 8 (by decide)

/-- Claim C6, counterexample: bob (id 2, not the owner) requests
`/complete/1` on the pending task owned by alice (id 1); the status of
that task flips to "Completed", so the request is not a no-op and the
store does change. -/
theorem C6_completeCrossOwner_cex :
    (sampleTask 1 1 "Pending").user_id = 1 ∧
    bobPremium.id = 2 ∧
    (complete storeCross bobPremium 1).map (fun s2 => s2.tasks) =
      some [sampleTask 1 1 "Completed"] ∧
    storeCross.tasks = [sampleTask 1 1 "Pending"] := by decide

/-- Claim C6 (amended): a `/complete/<id>` request for any stored task
succeeds and sets that task status to "Completed" whoever the caller
is; the handler performs no ownership check. -/
theorem C6_completeIgnoresOwner (s : Store) (cu : User) (t : Task)
    (ht : t ∈ s.tasks) :
    statusAfter s cu t.id = some "Completed" := by
  have hsome : (s.tasks.find? (fun x => x.id == t.id)).isSome = true :=
    List.find?_isSome.mpr ⟨t, ht, by simp⟩
  obtain ⟨t0, h0⟩ := Option.isSome_iff_exists.mp hsome
  unfold statusAfter complete
  rw [h0]
  rw [show (match some t0 with
      | none => (none : Option Store)
      | some _ =>
          some { users := if cu.plan ≠ "Free" then bumpStreak s.users cu.id else s.users,
                 tasks := setTaskStatus s.tasks t.id "Completed" }) =
      some { users := if cu.plan ≠ "Free" then bumpStreak s.users cu.id else s.users,
             tasks := setTaskStatus s.tasks t.id "Completed" } from rfl]
  rw [Option.some_bind]
  rw [find_setTaskStatus, h0]
  rfl

/-- Claim C6 witness: bob completes the task owned by alice and the
status column of that task reads "Completed" afterwards. -/
theorem C6_completeIgnoresOwner_witness :
    statusAfter storeCross bobPremium (sampleTask 1 1 "Pending").id = some "Completed" :=
  C6_completeIgnoresOwner storeCross bobPremium (sampleTask 1 1 "Pending") (by decide)

/-- Claim C7: the completion rate is 0 on an empty task list, otherwise
equals the two-decimal rounding of completed/total × 100, and in every
case lies between 0 and 100. -/
theorem C7_completionRate (tasks : List Task) :
    (tasks = [] → completion_rate tasks = 0) ∧
    (tasks ≠ [] → completion_rate tasks =
      round2 ((completedCount tasks : ℚ) / (tasks.length : ℚ) * 100)) ∧
    0 ≤ completion_rate tasks ∧ completion_rate tasks ≤ 100 := by
  have formula : tasks ≠ [] → completion_rate tasks =
      round2 ((completedCount tasks : ℚ) / (tasks.length : ℚ) * 100) := by
    intro h
    unfold completion_rate
    rw [if_pos (List.length_pos.mpr h)]
  refine ⟨?_, formula, ?_⟩
  · intro h
    subst h
    rfl
  · by_cases h : tasks = []
    · subst h
      norm_num [completion_rate]
    · rw [formula h]
      have hn : (0 : ℚ) < (tasks.length : ℚ) := by
        exact_mod_cast List.length_pos.mpr h
      have hc : (completedCount tasks : ℚ) ≤ (tasks.length : ℚ) := by
        exact_mod_cast List.length_filter_le _ tasks
      have h0 : 0 ≤ (completedCount tasks : ℚ) / (tasks.length : ℚ) * 100 := by positivity
      have h1 : (completedCount tasks : ℚ) / (tasks.length : ℚ) * 100 ≤ 100 := by
        have hdiv : (completedCount tasks : ℚ) / (tasks.length : ℚ) ≤ 1 :=
          (div_le_one hn).mpr hc
        nlinarith
      exact round2_bounds _ h0 h1

/-- Claim C7 witness: on a list of two tasks with one completed, the
rate is 50, inside [0, 100]. -/
theorem C7_completionRate_witness :
    completion_rate tasksHalf =
      round2 ((completedCount tasksHalf : ℚ) / (tasksHalf.length : ℚ) * 100) ∧
    completion_rate tasksHalf = 50 ∧
    0 ≤ completion_rate tasksHalf ∧ completion_rate tasksHalf ≤ 100 := by
  have h := C7_completionRate tasksHalf
  have hf := h.2.1 (by decide)
  have hc : completedCount tasksHalf = 1 := by decide
  have hl : tasksHalf.length = 2 := by decide
  refine ⟨hf, ?_, h.2.2⟩
  rw [hf, hc, hl]
  norm_num [round2]

/-- Claim C8: deleting a stored task id removes exactly that row: the
resulting task table is the original with that id filtered out, and the
user table is untouched. -/
theorem C8_deleteRemovesExactly (s : Store) (t : Task)
    (ht : t ∈ s.tasks) (hn : (s.tasks.map Task.id).Nodup) :
    delete s t.id =
      some { users := s.users, tasks := s.tasks.filter (fun x => x.id != t.id) } := by
  unfold delete
  rw [findTaskNodup s.tasks t ht hn]
  show some { s with tasks := s.tasks.erase t } = _
  rw [eraseTaskNodup s.tasks t ht hn]

/-- Claim C8 witness: deleting task 1 of `storeCross` empties the task
table and keeps both account rows. -/
theorem C8_deleteRemovesExactly_witness :
    delete storeCross (sampleTask 1 1 "Pending").id =
      some { users := storeCross.users, tasks := [] } :=
  (C8_deleteRemovesExactly storeCross (sampleTask 1 1 "Pending")
    (by decide) (by decide)).trans (by decide)

/-- Claim C10: the streak counter moves only at `/complete`: a request
for a stored task bumps the caller streak by one exactly when the
caller plan is not "Free", while login, registration, task creation and
task deletion never change any streak column. -/
theorem C10_streakOnlyOnComplete (s : Store) (cu : User) (tid : Nat) (f : TaskForm)
    (nid rid did : Nat) (lu lp ru rp : String)
    (hcu : cu ∈ s.users) (hnu : (s.users.map User.id).Nodup)
    (ht : (s.tasks.find? (fun t => t.id == tid)).isSome = true) :
    streakAfterComplete s cu tid =
      some (if cu.plan = "Free" then cu.streak else cu.streak + 1) ∧
    (login s lu lp).2 = s ∧
    streaksOf (usersAfterRegister s ru rp rid) =
      streaksOf s.users ++ (if (register s ru rp rid).isSome then [(rid, (0 : Int))] else []) ∧
    (dashboardPost s cu f nid).2.users = s.users ∧
    usersAfterDelete s did = s.users := by
  refine ⟨?_, loginSndEq s lu lp, ?_, ?_, ?_⟩
  · obtain ⟨t0, h0⟩ := Option.isSome_iff_exists.mp ht
    unfold streakAfterComplete complete
    rw [h0]
    rw [show (match some t0 with
        | none => (none : Option Store)
        | some _ =>
            some { users := if cu.plan ≠ "Free" then bumpStreak s.users cu.id else s.users,
                   tasks := setTaskStatus s.tasks tid "Completed" }) =
        some { users := if cu.plan ≠ "Free" then bumpStreak s.users cu.id else s.users,
               tasks := setTaskStatus s.tasks tid "Completed" } from rfl]
    rw [Option.some_bind]
    unfold streakOf
    by_cases hplan : cu.plan = "Free"
    · rw [if_neg (fun hne => hne hplan), if_pos hplan,
        findUserNodup s.users cu hcu hnu]
      rfl
    · rw [if_pos hplan, if_neg hplan, find_bumpStreak,
        findUserNodup s.users cu hcu hnu]
      rfl
  · unfold usersAfterRegister register streaksOf
    by_cases hdup : s.users.any (fun u => u.username == ru) = true
    · rw [if_pos hdup]
      simp
    · rw [if_neg hdup]
      simp
  · unfold dashboardPost
    split
    · rfl
    · rfl
  · unfold usersAfterDelete delete
    cases hfind : s.tasks.find? (fun t => t.id == did) with
    | none => rfl
    | some t => rfl

/-- Claim C10 witness: on `storeCross`, bob (Premium, streak 3)
completing task 1 ends with streak 4, while login, registration, task
creation and deletion leave the user rows as they were. -/
theorem C10_streakOnlyOnComplete_witness :
    streakAfterComplete storeCross bobPremium 1 = some 4 ∧
    (login storeCross "alice" "pw").2 = storeCross ∧
    streaksOf (usersAfterRegister storeCross "carol" "pw3" 7) =
      streaksOf storeCross.users ++ [(7, (0 : Int))] ∧
    (dashboardPost storeCross bobPremium sampleForm 9).2.users = storeCross.users ∧
    usersAfterDelete storeCross 1 = storeCross.users := by
  have h := C10_streakOnlyOnComplete storeCross bobPremium 1 sampleForm 9 7 1 "alice" "pw"
    "carol" "pw3" (by decide) (by decide) (by decide)
  refine ⟨?_, h.2.1, ?_, h.2.2.2.1, h.2.2.2.2⟩
  · rw [h.1]
    decide
  · rw [h.2.2.1]
    decide

end Taskora
